import Mathlib

/-!
Verification of the DiabetesGuard Pro risk-scoring pipeline
(`app/utils/model_handler.py`, `app/models/train_model.py`,
`diabetes_app.py`) against its natural-language specification.

Python dictionaries carrying a prediction request are modelled as
association lists from field names to dynamically typed values; Python
numbers (ints and floats alike) are modelled as rationals; functions that
can raise are modelled in `Except`.
-/

set_option autoImplicit false

namespace DiabetesGuard

/-- A dynamically typed value stored in a request dictionary: Python code in
this repository stores either numbers or strings there. -/
inductive Value where
  | num (q : ℚ)
  | str (s : String)
  deriving DecidableEq, Repr

/-- A Python dict of field name → value, modelled as an association list in
insertion order. -/
abbrev InputData := List (String × Value)

/-- First-match association-list lookup (Python `d[k]` / `k in d`). -/
def alookup {β : Type} (k : String) : List (String × β) → Option β
  | [] => none
  | (k', v) :: rest => if k = k' then some v else alookup k rest

/-- Python `d.get(k, default)`. -/
def dget (d : InputData) (k : String) (default : Value) : Value :=
  (alookup k d).getD default

/-- Exceptions raised by the modelled Python code. -/
inductive PyErr where
  /-- `FileNotFoundError("Could not find models directory in any of: …")`,
  carrying the list of probed candidate directories. -/
  | dirNotFound (probed : List String)
  /-- `FileNotFoundError("Could not find {file_type} at: {file_path}")`. -/
  | artifactMissing (fileType : String) (path : String)
  /-- pandas `KeyError` when selecting an absent column. -/
  | keyErr
  /-- Python `TypeError`/`ValueError` from using a string where a number is
  required. -/
  | typeErr
  deriving DecidableEq, Repr

/-- `model_handler.get_risk_level` (model_handler.py lines 158–167). -/
def get_risk_level (probability : ℚ) : String :=
  if probability < 0.2 then "Low Risk"
  else if probability < 0.4 then "Moderate Risk"
  else if probability < 0.6 then "High Risk"
  else "Very High Risk"

/-- **C1**: the risk-level classifier maps `[0, 0.2)` to Low, `[0.2, 0.4)` to
Moderate, `[0.4, 0.6)` to High and `[0.6, 1]` to Very High; the boundary
probabilities 0.2, 0.4 and 0.6 map to Moderate, High and Very High
respectively. -/
theorem risk_level_breakpoints (p : ℚ) :
    (0 ≤ p → p < 0.2 → get_risk_level p = "Low Risk")
    ∧ (0.2 ≤ p → p < 0.4 → get_risk_level p = "Moderate Risk")
    ∧ (0.4 ≤ p → p < 0.6 → get_risk_level p = "High Risk")
    ∧ (0.6 ≤ p → p ≤ 1 → get_risk_level p = "Very High Risk")
    ∧ get_risk_level 0.2 = "Moderate Risk"
    ∧ get_risk_level 0.4 = "High Risk"
    ∧ get_risk_level 0.6 = "Very High Risk" := by
  refine ⟨?_, ?_, ?_, ?_, by norm_num [get_risk_level], by norm_num [get_risk_level],
    by norm_num [get_risk_level]⟩
  · intro _ h2
    simp [get_risk_level, h2]
  · intro h1 h2
    rw [get_risk_level, if_neg (by linarith), if_pos h2]
  · intro h1 h2
    rw [get_risk_level, if_neg (by linarith), if_neg (by linarith), if_pos h2]
  · intro h1 _
    rw [get_risk_level, if_neg (by linarith), if_neg (by linarith), if_neg (by linarith)]

/-- Witness for `risk_level_breakpoints`: each band and each boundary is
exercised at a concrete probability. -/
theorem risk_level_breakpoints_witness :
    get_risk_level 0.1 = "Low Risk" ∧ get_risk_level 0.3 = "Moderate Risk"
    ∧ get_risk_level 0.5 = "High Risk" ∧ get_risk_level 0.9 = "Very High Risk" :=
  ⟨(risk_level_breakpoints 0.1).1 (by norm_num) (by norm_num),
   (risk_level_breakpoints 0.3).2.1 (by norm_num) (by norm_num),
   (risk_level_breakpoints 0.5).2.2.1 (by norm_num) (by norm_num),
   (risk_level_breakpoints 0.9).2.2.2.1 (by norm_num) (by norm_num)⟩

/-- **C10**: `get_risk_level` is total over all rational probabilities: any
input below 0.2 (negative included) yields Low, any input at or above 0.6
(above 1 included) yields Very High, and the result is always one of the
four labels. -/
theorem risk_level_total (p : ℚ) :
    (p < 0.2 → get_risk_level p = "Low Risk")
    ∧ (0.6 ≤ p → get_risk_level p = "Very High Risk")
    ∧ (get_risk_level p = "Low Risk" ∨ get_risk_level p = "Moderate Risk"
       ∨ get_risk_level p = "High Risk" ∨ get_risk_level p = "Very High Risk") := by
  refine ⟨fun h => by simp [get_risk_level, h], fun h => ?_, ?_⟩
  · rw [get_risk_level, if_neg (by linarith), if_neg (by linarith), if_neg (by linarith)]
  · unfold get_risk_level
    split
    · exact Or.inl rfl
    · split
      · exact Or.inr (Or.inl rfl)
      · split
        · exact Or.inr (Or.inr (Or.inl rfl))
        · exact Or.inr (Or.inr (Or.inr rfl))

/-- Witness for `risk_level_total`: out-of-contract inputs −1 and 2 are
handled without failure. -/
theorem risk_level_total_witness :
    get_risk_level (-1) = "Low Risk" ∧ get_risk_level 2 = "Very High Risk" :=
  ⟨(risk_level_total (-1)).1 (by norm_num), (risk_level_total 2).2.1 (by norm_num)⟩

/-- The fixed categorical encoding tables of
`model_handler.prepare_input_data` (lines 99–103); identical tables appear in
`train_model.prepare_data` (lines 47–51). -/
def mappings : List (String × List (String × ℚ)) :=
  [("Gender", [("Male", 0), ("Female", 1)]),
   ("Smoking_Status", [("Never", 0), ("Former", 1), ("Current", 2)]),
   ("Stress_Level", [("Low", 0), ("Moderate", 1), ("High", 2)])]

/-- One step of the `prepare_input_data` loop body: a string value is replaced
by `mapping.get(value, 0)` (line 113); non-string values pass through the
`isinstance(input_data[col], str)` guard unchanged. -/
def encodeCat (m : List (String × ℚ)) (v : Value) : Value :=
  match v with
  | Value.str s => Value.num ((alookup s m).getD 0)
  | v => v

/-- `input_data[col] = mapping.get(input_data[col], 0)` applied at key `col`
(touching nothing when `col` is absent, per the `if col in input_data`
guard). -/
def applyCat (col : String) (m : List (String × ℚ)) (d : InputData) : InputData :=
  d.map (fun kv => match kv with
    | (k, v) => if k = col then (k, encodeCat m v) else (k, v))

/-- `model_handler.prepare_input_data` (lines 96–115): the loop over the three
categorical mappings. In the Python source this mutates the caller's dict in
place; here the mutated dict is the return value. -/
def prepare_input_data (input_data : InputData) : InputData :=
  mappings.foldl (fun acc p => applyCat p.1 p.2 acc) input_data

/-- `input_data.get(field, 0)` followed by a numeric comparison: a string
raises `TypeError`. -/
def asNum : Value → Except PyErr ℚ
  | Value.num q => Except.ok q
  | Value.str _ => Except.error PyErr.typeErr

/-- Advisory text blocks of `model_handler.get_recommendations`
(lines 177–219). -/
def mh_weight_management : String :=
  "🏋️ Weight Management:\n- Consider consulting a nutritionist\n- Aim for a balanced, calorie-controlled diet\n- Set realistic weight loss goals"

def mh_weight_watch : String :=
  "⚖️ Weight Watch:\n- Monitor your caloric intake\n- Include more fruits and vegetables in your diet\n- Maintain regular physical activity"

def mh_bp_management : String :=
  "❤️ Blood Pressure Management:\n- Reduce sodium intake\n- Practice stress management techniques\n- Consider DASH diet\n- Regular BP monitoring"

def mh_bp_watch : String :=
  "🩺 Blood Pressure Watch:\n- Limit salt intake\n- Regular blood pressure monitoring\n- Stay physically active"

def mh_sugar_control : String :=
  "🍎 Blood Sugar Control:\n- Monitor blood sugar regularly\n- Follow a balanced diet\n- Consider consulting an endocrinologist"

def mh_sugar_watch : String :=
  "🥗 Blood Sugar Watch:\n- Limit refined sugars\n- Choose whole grains over processed grains\n- Regular blood sugar monitoring"

def mh_physical_activity : String :=
  "🏃 Physical Activity:\n- Aim for at least 150 minutes of moderate exercise per week\n- Include both cardio and strength training\n- Start slowly and gradually increase intensity"

def mh_smoking_cessation : String :=
  "🚭 Smoking Cessation:\n- Consider nicotine replacement therapy\n- Join a smoking cessation program\n- Set a quit date\n- Seek support from family and friends"

def mh_alcohol_moderation : String :=
  "🍷 Alcohol Moderation:\n- Limit alcohol consumption\n- Stay within recommended guidelines\n- Consider alcohol-free days\n- Stay hydrated"

def mh_stress_management : String :=
  "🧘 Stress Management:\n- Practice relaxation techniques\n- Consider meditation or yoga\n- Maintain a regular sleep schedule\n- Seek professional support if needed"

def mh_general_tips : String :=
  "🌟 General Health Tips:\n- Get regular health check-ups\n- Stay hydrated\n- Maintain a balanced diet\n- Get adequate sleep"

/-- The list assembled by the appends of `model_handler.get_recommendations`
(lines 175–221), as a function of the values read from the dict; blocks occur
in the source's fixed rule order ending with the unconditional general
block. -/
def mh_blocks (bmi bp glucose exercise : ℚ) (smoking : Value) (alcohol : ℚ)
    (stress : Value) : List String :=
  (if bmi > 30 then [mh_weight_management]
   else if bmi > 25 then [mh_weight_watch] else [])
  ++ (if bp > 140 then [mh_bp_management]
      else if bp > 120 then [mh_bp_watch] else [])
  ++ (if glucose > 126 then [mh_sugar_control]
      else if glucose > 100 then [mh_sugar_watch] else [])
  ++ (if exercise < 2.5 then [mh_physical_activity] else [])
  ++ (if smoking = Value.str "Current" then [mh_smoking_cessation] else [])
  ++ (if alcohol > 14 then [mh_alcohol_moderation] else [])
  ++ (if stress ∈ [Value.str "High", Value.str "Moderate"]
      then [mh_stress_management] else [])
  ++ [mh_general_tips]

/-- `model_handler.get_recommendations` (lines 169–221): reads each field with
`input_data.get(…, default)`; the numeric fields raise `TypeError` when they
hold a string, the `Smoking_Status`/`Stress_Level` checks are plain equality
and never raise. -/
def get_recommendations (input_data : InputData) : Except PyErr (List String) :=
  match asNum (dget input_data "BMI" (Value.num 0)),
      asNum (dget input_data "Blood_Pressure" (Value.num 0)),
      asNum (dget input_data "Glucose_Level" (Value.num 0)),
      asNum (dget input_data "Exercise_Hours_Per_Week" (Value.num 0)),
      asNum (dget input_data "Alcohol_Consumption_Per_Week" (Value.num 0)) with
  | Except.ok bmi, Except.ok bp, Except.ok glucose, Except.ok exercise,
      Except.ok alcohol =>
    Except.ok (mh_blocks bmi bp glucose exercise
      (dget input_data "Smoking_Status" (Value.str "")) alcohol
      (dget input_data "Stress_Level" (Value.str "")))
  | Except.error e, _, _, _, _ => Except.error e
  | _, Except.error e, _, _, _ => Except.error e
  | _, _, Except.error e, _, _ => Except.error e
  | _, _, _, Except.error e, _ => Except.error e
  | _, _, _, _, Except.error e => Except.error e

/-- Advisory text blocks of the `diabetes_app.get_recommendations` variant
(diabetes_app.py lines 92–134). Blocks identical to the model_handler variant
reuse the `mh_` constants; the ones below differ in wording. -/
def da_sugar_control : String :=
  "🍎 Blood Sugar Control:\n- Monitor blood sugar regularly\n- Consider consulting an endocrinologist\n- Follow a diabetes-friendly diet\n- Regular exercise routine"

def da_sugar_watch : String :=
  "📊 Blood Sugar Watch:\n- Limit refined sugars and carbohydrates\n- Regular blood sugar monitoring\n- Include fiber-rich foods in your diet"

def da_physical_activity : String :=
  "🏃 Physical Activity:\n- Aim for at least 150 minutes of moderate exercise per week\n- Include both cardio and strength training\n- Start with walking and gradually increase intensity"

def da_alcohol_consumption : String :=
  "🍷 Alcohol Consumption:\n- Reduce alcohol intake\n- Limit to 1-2 drinks per day\n- Consider alcohol-free days"

def da_smoking_cessation : String :=
  "🚭 Smoking Cessation:\n- Consider nicotine replacement therapy\n- Join smoking cessation programs\n- Seek support from healthcare providers"

def da_stress_management : String :=
  "🧘 Stress Management:\n- Practice relaxation techniques\n- Consider meditation or yoga\n- Get adequate sleep\n- Consider counseling if needed"

def da_stress_reduction : String :=
  "😌 Stress Reduction:\n- Regular exercise\n- Practice mindfulness\n- Maintain work-life balance"

def da_general_checkups : String :=
  "🏥 Regular Health Check-ups:\n- Annual physical examinations\n- Regular blood work\n- Eye examinations\n- Dental check-ups"

/-- `diabetes_app.get_recommendations` (diabetes_app.py lines 92–134): the
second rule-set variant, taking the metrics as scalar arguments; note its
alcohol rule fires above 7 (not 14), its alcohol block precedes the smoking
block, and its stress rule distinguishes High from Moderate. -/
def da_get_recommendations (age bmi blood_pressure glucose_level exercise_hours
    alcohol_consumption : ℚ) (smoking_status stress_level : String) : List String :=
  (if bmi > 30 then [mh_weight_management]
   else if bmi > 25 then [mh_weight_watch] else [])
  ++ (if blood_pressure > 140 then [mh_bp_management]
      else if blood_pressure > 120 then [mh_bp_watch] else [])
  ++ (if glucose_level > 126 then [da_sugar_control]
      else if glucose_level > 100 then [da_sugar_watch] else [])
  ++ (if exercise_hours < 2.5 then [da_physical_activity] else [])
  ++ (if alcohol_consumption > 7 then [da_alcohol_consumption] else [])
  ++ (if smoking_status = "Current" then [da_smoking_cessation] else [])
  ++ (if stress_level = "High" then [da_stress_management]
      else if stress_level = "Moderate" then [da_stress_reduction] else [])
  ++ [da_general_checkups]

/-- The dict built by the prediction form (`predict.py` lines 50–60), with the
nine HealthProfile fields in the form's insertion order. -/
def mkProfile (age : ℚ) (gender : String) (bmi blood_pressure glucose exercise : ℚ)
    (smoking : String) (alcohol : ℚ) (stress : String) : InputData :=
  [("Age", Value.num age),
   ("Gender", Value.str gender),
   ("BMI", Value.num bmi),
   ("Blood_Pressure", Value.num blood_pressure),
   ("Glucose_Level", Value.num glucose),
   ("Exercise_Hours_Per_Week", Value.num exercise),
   ("Smoking_Status", Value.str smoking),
   ("Alcohol_Consumption_Per_Week", Value.num alcohol),
   ("Stress_Level", Value.str stress)]

/-- On any form-built profile every read of `get_recommendations` succeeds and
the result is `mh_blocks` of the profile's fields. -/
theorem get_recommendations_mkProfile (age : ℚ) (gender : String)
    (bmi blood_pressure glucose exercise : ℚ) (smoking : String) (alcohol : ℚ)
    (stress : String) :
    get_recommendations
      (mkProfile age gender bmi blood_pressure glucose exercise smoking alcohol stress)
      = Except.ok (mh_blocks bmi blood_pressure glucose exercise
          (Value.str smoking) alcohol (Value.str stress)) := rfl

/-- The example profile of spec §8: bmi=32, bp=145, glucose=130, exercise=1,
smoking=Current, alcohol=15, stress=High. -/
def spec_example_profile : InputData :=
  [("BMI", Value.num 32),
   ("Blood_Pressure", Value.num 145),
   ("Glucose_Level", Value.num 130),
   ("Exercise_Hours_Per_Week", Value.num 1),
   ("Smoking_Status", Value.str "Current"),
   ("Alcohol_Consumption_Per_Week", Value.num 15),
   ("Stress_Level", Value.str "High")]

/-- **C4**: on the profile {bmi=32, bp=145, glucose=130, exercise=1,
smoking=Current, alcohol=15, stress=High} the recommendation engine returns
exactly the eight blocks weight, blood-pressure, blood-sugar,
physical-activity, smoking-cessation, alcohol, stress, general, in that
order. -/
theorem recommendations_example_profile :
    get_recommendations spec_example_profile
      = Except.ok [mh_weight_management, mh_bp_management, mh_sugar_control,
          mh_physical_activity, mh_smoking_cessation, mh_alcohol_moderation,
          mh_stress_management, mh_general_tips] := by
  have h : get_recommendations spec_example_profile
      = Except.ok (mh_blocks 32 145 130 1 (Value.str "Current") 15 (Value.str "High")) := rfl
  rw [h]
  norm_num [mh_blocks]

/-- `mh_blocks` always ends with the general block. -/
lemma mh_blocks_getLast (bmi bp glucose exercise : ℚ) (smoking : Value)
    (alcohol : ℚ) (stress : Value) :
    (mh_blocks bmi bp glucose exercise smoking alcohol stress).getLast?
      = some mh_general_tips := by
  unfold mh_blocks
  rw [List.getLast?_append_cons]
  rfl

/-- **C7**: every successful run of the recommendation engine returns a
non-empty sequence whose last element is the general-health block. -/
theorem recommendations_nonempty_end_general (d : InputData) (l : List String)
    (h : get_recommendations d = Except.ok l) :
    l ≠ [] ∧ l.getLast? = some mh_general_tips := by
  unfold get_recommendations at h
  split at h
  · rename_i bmi bp glucose exercise alcohol heq1 heq2 heq3 heq4 heq5
    injection h with h'
    subst h'
    have hlast := mh_blocks_getLast bmi bp glucose exercise
      (dget d "Smoking_Status" (Value.str "")) alcohol
      (dget d "Stress_Level" (Value.str ""))
    refine ⟨fun h0 => ?_, hlast⟩
    rw [h0] at hlast
    exact Option.noConfusion hlast
  all_goals exact Except.noConfusion h

/-- Witness for `recommendations_nonempty_end_general`: the all-healthy
profile of spec §8 yields exactly the general block. -/
theorem recommendations_nonempty_end_general_witness :
    ([mh_general_tips] : List String) ≠ []
      ∧ ([mh_general_tips] : List String).getLast? = some mh_general_tips :=
  recommendations_nonempty_end_general
    (mkProfile 30 "Male" 22 110 90 5 "Never" 0 "Low") [mh_general_tips]
    (by rw [get_recommendations_mkProfile]; norm_num [mh_blocks]; decide)

/-- `applyCat` changes the value only at the targeted key, where it applies
`encodeCat`. -/
lemma alookup_applyCat (col col' : String) (m : List (String × ℚ)) (d : InputData) :
    alookup col (applyCat col' m d)
      = if col = col' then (alookup col d).map (encodeCat m) else alookup col d := by
  induction d with
  | nil => by_cases h : col = col' <;> simp [applyCat, alookup, h]
  | cons kv rest ih =>
    obtain ⟨k, v⟩ := kv
    show alookup col
        ((if k = col' then (k, encodeCat m v) else (k, v)) :: applyCat col' m rest) = _
    by_cases h3 : k = col'
    · rw [if_pos h3]
      show (if col = k then some (encodeCat m v) else alookup col (applyCat col' m rest)) = _
      by_cases h2 : col = k
      · rw [if_pos h2, if_pos (h2.trans h3)]
        show _ = (if col = k then some v else alookup col rest).map (encodeCat m)
        rw [if_pos h2, Option.map_some']
      · rw [if_neg h2, ih]
        by_cases h1 : col = col'
        · rw [if_pos h1, if_pos h1]
          show _ = (if col = k then some v else alookup col rest).map (encodeCat m)
          rw [if_neg h2]
        · rw [if_neg h1, if_neg h1]
          show _ = (if col = k then some v else alookup col rest)
          rw [if_neg h2]
    · rw [if_neg h3]
      show (if col = k then some v else alookup col (applyCat col' m rest)) = _
      by_cases h2 : col = k
      · rw [if_pos h2]
        have h1 : ¬ col = col' := fun hc => h3 (h2 ▸ hc)
        rw [if_neg h1]
        show _ = (if col = k then some v else alookup col rest)
        rw [if_pos h2]
      · rw [if_neg h2, ih]
        by_cases h1 : col = col'
        · rw [if_pos h1, if_pos h1]
          show _ = (if col = k then some v else alookup col rest).map (encodeCat m)
          rw [if_neg h2]
        · rw [if_neg h1, if_neg h1]
          show _ = (if col = k then some v else alookup col rest)
          rw [if_neg h2]

/-- The `prepare_input_data` loop unrolled over the three mapping entries. -/
lemma prepare_input_data_unroll (d : InputData) :
    prepare_input_data d
      = applyCat "Stress_Level" [("Low", 0), ("Moderate", 1), ("High", 2)]
          (applyCat "Smoking_Status" [("Never", 0), ("Former", 1), ("Current", 2)]
            (applyCat "Gender" [("Male", 0), ("Female", 1)] d)) := rfl

/-- **C5**: the feature preparer encodes Gender by {Male:0, Female:1},
Smoking_Status by {Never:0, Former:1, Current:2} and Stress_Level by
{Low:0, Moderate:1, High:2}, and any raw string outside the table is encoded
as 0 rather than rejected. -/
theorem prepare_categorical_encoding (d : InputData) (s : String) :
    (alookup "Gender" d = some (Value.str s) →
      alookup "Gender" (prepare_input_data d)
        = some (Value.num (if s = "Male" then 0 else if s = "Female" then 1 else 0)))
    ∧ (alookup "Smoking_Status" d = some (Value.str s) →
      alookup "Smoking_Status" (prepare_input_data d)
        = some (Value.num (if s = "Never" then 0 else if s = "Former" then 1
            else if s = "Current" then 2 else 0)))
    ∧ (alookup "Stress_Level" d = some (Value.str s) →
      alookup "Stress_Level" (prepare_input_data d)
        = some (Value.num (if s = "Low" then 0 else if s = "Moderate" then 1
            else if s = "High" then 2 else 0))) := by
  refine ⟨fun h => ?_, fun h => ?_, fun h => ?_⟩
  · rw [prepare_input_data_unroll, alookup_applyCat, if_neg (by decide),
      alookup_applyCat, if_neg (by decide), alookup_applyCat, if_pos rfl, h,
      Option.map_some']
    simp only [encodeCat, alookup]
    by_cases hm : s = "Male" <;> by_cases hf : s = "Female" <;> simp [hm, hf]
  · rw [prepare_input_data_unroll, alookup_applyCat, if_neg (by decide),
      alookup_applyCat, if_pos rfl,
      alookup_applyCat, if_neg (by decide), h, Option.map_some']
    simp only [encodeCat, alookup]
    by_cases h1 : s = "Never" <;> by_cases h2 : s = "Former" <;>
      by_cases h3 : s = "Current" <;> simp [h1, h2, h3]
  · rw [prepare_input_data_unroll, alookup_applyCat, if_pos rfl]
    rw [alookup_applyCat, if_neg (by decide), alookup_applyCat, if_neg (by decide), h,
      Option.map_some']
    simp only [encodeCat, alookup]
    by_cases h1 : s = "Low" <;> by_cases h2 : s = "Moderate" <;>
      by_cases h3 : s = "High" <;> simp [h1, h2, h3]

/-- Witness for `prepare_categorical_encoding`: the unrecognized raw values
`Other`, `Sometimes` and `Unknown` all encode to 0. -/
theorem prepare_categorical_encoding_witness :
    alookup "Gender"
        (prepare_input_data [("Gender", Value.str "Other"),
          ("Smoking_Status", Value.str "Sometimes"),
          ("Stress_Level", Value.str "Unknown")]) = some (Value.num 0)
    ∧ alookup "Smoking_Status"
        (prepare_input_data [("Gender", Value.str "Other"),
          ("Smoking_Status", Value.str "Sometimes"),
          ("Stress_Level", Value.str "Unknown")]) = some (Value.num 0)
    ∧ alookup "Stress_Level"
        (prepare_input_data [("Gender", Value.str "Other"),
          ("Smoking_Status", Value.str "Sometimes"),
          ("Stress_Level", Value.str "Unknown")]) = some (Value.num 0) :=
  ⟨by simpa using
      (prepare_categorical_encoding [("Gender", Value.str "Other"),
        ("Smoking_Status", Value.str "Sometimes"),
        ("Stress_Level", Value.str "Unknown")] "Other").1 rfl,
   by simpa using
      (prepare_categorical_encoding [("Gender", Value.str "Other"),
        ("Smoking_Status", Value.str "Sometimes"),
        ("Stress_Level", Value.str "Unknown")] "Sometimes").2.1 rfl,
   by simpa using
      (prepare_categorical_encoding [("Gender", Value.str "Other"),
        ("Smoking_Status", Value.str "Sometimes"),
        ("Stress_Level", Value.str "Unknown")] "Unknown").2.2 rfl⟩

/-- The form profile of `predict.py` with bmi=32, bp=145, glucose=130,
exercise=1, smoking=Current, alcohol=15, stress=High: the profile of spec §8
as assembled by `render_predict`. -/
def mutation_example_profile : InputData :=
  mkProfile 30 "Male" 32 145 130 1 "Current" 15 "High"

/-- **C3**: `prepare_input_data` mutates the caller's dict in place
(`input_data[col] = mapping.get(...)` on the dict passed by reference), so
after `get_prediction` the caller's mapping differs from the one built, and
`get_recommendations` run afterwards (as `render_predict` does) no longer
sees the raw `Smoking_Status`/`Stress_Level` strings: the smoking-cessation
and stress blocks are silently dropped. -/
theorem prepare_mutates_and_changes_recommendations :
    prepare_input_data mutation_example_profile ≠ mutation_example_profile
    ∧ get_recommendations mutation_example_profile
        = Except.ok [mh_weight_management, mh_bp_management, mh_sugar_control,
            mh_physical_activity, mh_smoking_cessation, mh_alcohol_moderation,
            mh_stress_management, mh_general_tips]
    ∧ get_recommendations (prepare_input_data mutation_example_profile)
        = Except.ok [mh_weight_management, mh_bp_management, mh_sugar_control,
            mh_physical_activity, mh_alcohol_moderation, mh_general_tips] := by
  have hp : prepare_input_data mutation_example_profile
      = [("Age", Value.num 30),
         ("Gender", Value.num 0),
         ("BMI", Value.num 32),
         ("Blood_Pressure", Value.num 145),
         ("Glucose_Level", Value.num 130),
         ("Exercise_Hours_Per_Week", Value.num 1),
         ("Smoking_Status", Value.num 2),
         ("Alcohol_Consumption_Per_Week", Value.num 15),
         ("Stress_Level", Value.num 2)] := rfl
  refine ⟨?_, ?_, ?_⟩
  · rw [hp]
    intro h
    have := congrArg (alookup "Smoking_Status") h
    simp [alookup, mutation_example_profile, mkProfile] at this
  · rw [show get_recommendations mutation_example_profile
        = Except.ok (mh_blocks 32 145 130 1 (Value.str "Current") 15 (Value.str "High"))
        from rfl]
    norm_num [mh_blocks]
  · rw [hp]
    rw [show get_recommendations
          [("Age", Value.num 30),
           ("Gender", Value.num 0),
           ("BMI", Value.num 32),
           ("Blood_Pressure", Value.num 145),
           ("Glucose_Level", Value.num 130),
           ("Exercise_Hours_Per_Week", Value.num 1),
           ("Smoking_Status", Value.num 2),
           ("Alcohol_Consumption_Per_Week", Value.num 15),
           ("Stress_Level", Value.num 2)]
        = Except.ok (mh_blocks 32 145 130 1 (Value.num 2) 15 (Value.num 2)) from rfl]
    norm_num [mh_blocks]
    decide

/-- **C8**: the two recommendation-rule variants diverge as described:
`model_handler.get_recommendations` fires its alcohol block only above 14
drinks while `diabetes_app.get_recommendations` fires one above 7; the
`🧘 Stress Management` block fires on {High, Moderate} in the model_handler
variant but only on High in the diabetes_app variant; at alcohol = 10 on an
otherwise healthy profile the two variants return different recommendation
sets. -/
theorem recommendation_variants_diverge :
    (∀ a : ℚ, get_recommendations (mkProfile 30 "Male" 22 110 90 5 "Never" a "Low")
        = Except.ok (if a > 14 then [mh_alcohol_moderation, mh_general_tips]
            else [mh_general_tips]))
    ∧ (∀ a : ℚ, da_get_recommendations 30 22 110 90 5 a "Never" "Low"
        = (if a > 7 then [da_alcohol_consumption, da_general_checkups]
           else [da_general_checkups]))
    ∧ (∀ st : String, get_recommendations (mkProfile 30 "Male" 22 110 90 5 "Never" 0 st)
        = Except.ok (if st = "High" ∨ st = "Moderate"
            then [mh_stress_management, mh_general_tips] else [mh_general_tips]))
    ∧ (∀ st : String, da_get_recommendations 30 22 110 90 5 0 "Never" st
        = (if st = "High" then [da_stress_management, da_general_checkups]
           else if st = "Moderate" then [da_stress_reduction, da_general_checkups]
           else [da_general_checkups]))
    ∧ get_recommendations (mkProfile 30 "Male" 22 110 90 5 "Never" 10 "Low")
        = Except.ok [mh_general_tips]
    ∧ da_get_recommendations 30 22 110 90 5 10 "Never" "Low"
        = [da_alcohol_consumption, da_general_checkups] := by
  refine ⟨fun a => ?_, fun a => ?_, fun st => ?_, fun st => ?_, ?_, ?_⟩
  · rw [get_recommendations_mkProfile]
    by_cases h : a > 14 <;> norm_num [mh_blocks, h] <;> decide
  · by_cases h : a > 7 <;> norm_num [da_get_recommendations, h] <;> decide
  · rw [get_recommendations_mkProfile]
    by_cases h1 : st = "High" <;> by_cases h2 : st = "Moderate" <;>
      norm_num [mh_blocks, h1, h2] <;> decide
  · by_cases h1 : st = "High" <;> by_cases h2 : st = "Moderate" <;>
      norm_num [da_get_recommendations, h1, h2] <;> decide
  · rw [get_recommendations_mkProfile]
    norm_num [mh_blocks] <;> decide
  · norm_num [da_get_recommendations] <;> decide

/-- One iteration of the fill loop of `get_prediction` (lines 128–131):
`if col not in input_df.columns: input_df[col] = 0` appends a zero column at
the end of the single-row frame. -/
def fillStep (acc : InputData) (c : String) : InputData :=
  if (alookup c acc).isSome then acc else acc ++ [(c, Value.num 0)]

/-- The whole `for col in feature_columns` fill loop of `get_prediction`. -/
def add_missing (cols : List String) (d : InputData) : InputData :=
  cols.foldl fillStep d

/-- Sequencing of fallible element-wise operations over a list (a Python loop
that stops at the first raised exception). -/
def mapExcept {α β : Type} (f : α → Except PyErr β) : List α → Except PyErr (List β)
  | [] => Except.ok []
  | a :: l => match f a with
    | Except.error e => Except.error e
    | Except.ok b => match mapExcept f l with
      | Except.error e => Except.error e
      | Except.ok bs => Except.ok (b :: bs)

/-- `input_df = input_df[feature_columns]` (line 134): selecting the columns
in training order from the single-row frame; pandas raises `KeyError` on an
absent column. -/
def select_row (cols : List String) (d : InputData) : Except PyErr (List Value) :=
  mapExcept (fun c => match alookup c d with
    | some v => Except.ok v
    | none => Except.error PyErr.keyErr) cols

lemma alookup_append_left {k : String} {d : InputData} (l : InputData)
    (h : (alookup k d).isSome) : alookup k (d ++ l) = alookup k d := by
  induction d with
  | nil => simp [alookup] at h
  | cons kv rest ih =>
    obtain ⟨k', v'⟩ := kv
    by_cases hk : k = k'
    · simp [List.cons_append, alookup, hk]
    · simp only [List.cons_append, alookup, if_neg hk] at h ⊢
      exact ih h

lemma alookup_append_right {k : String} {d : InputData} (l : InputData)
    (h : alookup k d = none) : alookup k (d ++ l) = alookup k l := by
  induction d with
  | nil => simp
  | cons kv rest ih =>
    obtain ⟨k', v'⟩ := kv
    by_cases hk : k = k'
    · simp [alookup, hk] at h
    · simp only [List.cons_append, alookup, if_neg hk] at h ⊢
      exact ih h

/-- Effect of one fill iteration on a later lookup. -/
lemma fillStep_lookup (d : InputData) (c' c : String) :
    alookup c (fillStep d c')
      = if c = c' then some ((alookup c d).getD (Value.num 0)) else alookup c d := by
  unfold fillStep
  by_cases hs : (alookup c' d).isSome
  · rw [if_pos hs]
    by_cases hc : c = c'
    · subst hc
      rw [if_pos rfl]
      obtain ⟨v, hv⟩ := Option.isSome_iff_exists.mp hs
      rw [hv]
      rfl
    · rw [if_neg hc]
  · rw [if_neg hs]
    have hnone : alookup c' d = none := Option.not_isSome_iff_eq_none.mp hs
    by_cases hc : c = c'
    · subst hc
      rw [if_pos rfl, alookup_append_right _ hnone, hnone]
      simp [alookup]
    · rw [if_neg hc]
      rcases hcd : alookup c d with _ | v
      · rw [alookup_append_right _ hcd]
        simp [alookup, hc]
      · rw [alookup_append_left _ (by rw [hcd]; rfl), hcd]

/-- After the fill loop, every expected column resolves to the input's value
when present and to numeric 0 when absent; other keys are untouched. -/
lemma add_missing_lookup (cols : List String) (d : InputData) (c : String) :
    alookup c (add_missing cols d)
      = if c ∈ cols then some ((alookup c d).getD (Value.num 0)) else alookup c d := by
  induction cols generalizing d with
  | nil => simp [add_missing]
  | cons c' cs ih =>
    show alookup c (add_missing cs (fillStep d c')) = _
    rw [ih (fillStep d c'), fillStep_lookup]
    by_cases h1 : c ∈ cs <;> by_cases h2 : c = c' <;>
      simp [h1, h2, List.mem_cons]

lemma mapExcept_ok {α β : Type} (f : α → Except PyErr β) (g : α → β) (l : List α)
    (h : ∀ a ∈ l, f a = Except.ok (g a)) : mapExcept f l = Except.ok (l.map g) := by
  induction l with
  | nil => rfl
  | cons a t ih =>
    rw [mapExcept, h a (List.mem_cons_self a t),
      ih (fun b hb => h b (List.mem_cons_of_mem a hb))]
    rfl

/-- **C6**: the assembled feature row of `get_prediction` (fill missing
columns with 0, then select `feature_columns`) never fails and consists of
exactly the training-time columns, in their order, each resolved from the
input mapping with numeric 0 for absent columns. -/
theorem feature_row_order_and_defaults (cols : List String) (d : InputData) :
    select_row cols (add_missing cols d)
      = Except.ok (cols.map (fun c => (alookup c d).getD (Value.num 0))) := by
  apply mapExcept_ok
  intro c hc
  rw [add_missing_lookup, if_pos hc]

/-- `os.path.join` as used by the loader. -/
def joinPath (a b : String) : String := a ++ "/" ++ b

/-- The ordered candidate model directories of `find_model_files`
(lines 20–24), parameterized by the computed project root and the working
directory. -/
def model_dirs (project_root cwd : String) : List String :=
  [joinPath project_root "models",
   "/mount/src/diabetes-analysis/models",
   joinPath cwd "models"]

/-- The artifact filename table of `find_model_files` (lines 32–36); note
`imputer.joblib` is not part of it. -/
def filenames : List (String × String) :=
  [("model", "diabetes_model.joblib"),
   ("scaler", "scaler.joblib"),
   ("features", "feature_columns.txt")]

/-- `model_handler.find_model_files` (lines 11–62) with the filesystem as an
explicit existence predicate: the first existing candidate directory wins;
when none exists, `FileNotFoundError` carries every probed candidate; each
artifact path under the chosen directory is then verified in table order,
the first missing one raising. -/
def find_model_files (pathExists : String → Bool) (project_root cwd : String) :
    Except PyErr (List (String × String)) :=
  match (model_dirs project_root cwd).find? (fun dir => pathExists dir) with
  | none => Except.error (PyErr.dirNotFound (model_dirs project_root cwd))
  | some model_dir =>
    match (filenames.map (fun p => (p.1, joinPath model_dir p.2))).find?
        (fun p => !pathExists p.2) with
    | some p => Except.error (PyErr.artifactMissing p.1 p.2)
    | none => Except.ok (filenames.map (fun p => (p.1, joinPath model_dir p.2)))

/-- The artifact bundle persisted by training (`train_model.py` lines
116–124): classifier, scaler, feature-column list and, for the
`train_model.py` variant, an imputation transform (`imputer.joblib`); the
`verify_and_train.py` variant persists none, hence the option. Transforms
are abstract functions on numeric rows. -/
structure ArtifactBundle where
  model_predict : List ℚ → Bool
  model_predict_proba : List ℚ → ℚ
  scaler_transform : List ℚ → List ℚ
  imputer_transform : Option (List ℚ → List ℚ)
  feature_columns : List String

/-- What `load_model_components` returns (line 80): model, scaler and
feature columns only. -/
structure LoadedComponents where
  model_predict : List ℚ → Bool
  model_predict_proba : List ℚ → ℚ
  scaler_transform : List ℚ → List ℚ
  feature_columns : List String

/-- `model_handler.load_model_components` (lines 64–94): deserializes only
the model, the scaler and the feature-column list at the located paths —
`imputer.joblib` is not among `filenames` and is never loaded; any failure
is re-raised to the caller. `readArtifacts` stands for joblib
deserialization of the bundle reachable from the located paths. -/
def load_model_components (pathExists : String → Bool) (project_root cwd : String)
    (readArtifacts : List (String × String) → ArtifactBundle) :
    Except PyErr LoadedComponents :=
  match find_model_files pathExists project_root cwd with
  | Except.error e => Except.error e
  | Except.ok files =>
    let b := readArtifacts files
    Except.ok ⟨b.model_predict, b.model_predict_proba, b.scaler_transform,
      b.feature_columns⟩

/-- The result dict of `get_prediction` (lines 146–150). -/
structure PredResult where
  prediction : Bool
  probability : ℚ
  risk_level : String
  deriving DecidableEq, Repr

/-- `model_handler.get_prediction` (lines 117–152): load the components,
prepare the input, fill missing feature columns with 0, order the columns,
coerce to numbers, scale, then predict — the persisted imputation transform
is never applied. -/
def get_prediction (pathExists : String → Bool) (project_root cwd : String)
    (readArtifacts : List (String × String) → ArtifactBundle)
    (input_data : InputData) : Except PyErr PredResult :=
  match load_model_components pathExists project_root cwd readArtifacts with
  | Except.error e => Except.error e
  | Except.ok comps =>
    match select_row comps.feature_columns
        (add_missing comps.feature_columns (prepare_input_data input_data)) with
    | Except.error e => Except.error e
    | Except.ok row =>
      match mapExcept asNum row with
      | Except.error e => Except.error e
      | Except.ok nums =>
        let input_scaled := comps.scaler_transform nums
        let probability := comps.model_predict_proba input_scaled
        Except.ok ⟨comps.model_predict input_scaled, probability,
          get_risk_level probability⟩

/-- The training-time preprocessing order of `train_model.train_model`
(lines 89–92): imputation, then scaling. -/
def training_transform (imputer scaler : List ℚ → List ℚ) (x : List ℚ) : List ℚ :=
  scaler (imputer x)

/-- Modelled from the spec: the serving pipeline as §4.2 words it — "order
is: impute → scale → predict", applying the persisted imputation transform
when present in the artifact bundle, then the scaling transform, then the
classifier; otherwise identical to `get_prediction`. -/
def spec_get_prediction (pathExists : String → Bool) (project_root cwd : String)
    (readArtifacts : List (String × String) → ArtifactBundle)
    (input_data : InputData) : Except PyErr PredResult :=
  match find_model_files pathExists project_root cwd with
  | Except.error e => Except.error e
  | Except.ok files =>
    let b := readArtifacts files
    match select_row b.feature_columns
        (add_missing b.feature_columns (prepare_input_data input_data)) with
    | Except.error e => Except.error e
    | Except.ok row =>
      match mapExcept asNum row with
      | Except.error e => Except.error e
      | Except.ok nums =>
        let input_scaled := training_transform (b.imputer_transform.getD id)
          b.scaler_transform nums
        let probability := b.model_predict_proba input_scaled
        Except.ok ⟨b.model_predict input_scaled, probability,
          get_risk_level probability⟩

/-- A concrete artifact bundle whose persisted imputation transform is not
the identity: the scaler and classifier are trivial so the probability read
off is the first feature value. -/
def counterexample_bundle : ArtifactBundle where
  model_predict := fun _ => true
  model_predict_proba := fun l => l.headD 0
  scaler_transform := fun l => l
  imputer_transform := some (fun l => l.map (fun _ => 1))
  feature_columns := ["BMI"]

/-- Counterexample to **C2** as stated: on a bundle that does persist an
imputation transform, the serving pipeline's output differs from the spec's
impute → scale → predict pipeline, because `get_prediction` never applies
the imputer. -/
theorem serving_order_counterexample :
    get_prediction (fun _ => true) "/app" "/app" (fun _ => counterexample_bundle)
        [("BMI", Value.num 0)]
      ≠ spec_get_prediction (fun _ => true) "/app" "/app"
        (fun _ => counterexample_bundle) [("BMI", Value.num 0)] := by
  intro h
  have h0 : get_prediction (fun _ => true) "/app" "/app"
      (fun _ => counterexample_bundle) [("BMI", Value.num 0)]
      = Except.ok ⟨true, 0, get_risk_level 0⟩ := rfl
  have h1 : spec_get_prediction (fun _ => true) "/app" "/app"
      (fun _ => counterexample_bundle) [("BMI", Value.num 0)]
      = Except.ok ⟨true, 1, get_risk_level 1⟩ := rfl
  rw [h0, h1] at h
  injection h with h'
  have h2 := congrArg PredResult.probability h'
  norm_num at h2

/-- **C2 amended**: at serving time only the persisted scaling transform is
applied before inference (scale → predict); the serving pipeline coincides
with the spec's impute → scale → predict training-time order exactly when
the bundle's imputation transform, if any, acts as the identity. -/
theorem serving_scales_without_imputation (pathExists : String → Bool)
    (project_root cwd : String)
    (readArtifacts : List (String × String) → ArtifactBundle) (d : InputData)
    (himp : ∀ files x, ((readArtifacts files).imputer_transform.getD id) x = x) :
    get_prediction pathExists project_root cwd readArtifacts d
      = spec_get_prediction pathExists project_root cwd readArtifacts d := by
  unfold get_prediction spec_get_prediction load_model_components
  cases find_model_files pathExists project_root cwd with
  | error e => rfl
  | ok files =>
    dsimp only
    cases select_row (readArtifacts files).feature_columns
        (add_missing (readArtifacts files).feature_columns (prepare_input_data d)) with
    | error e => rfl
    | ok row =>
      dsimp only
      cases mapExcept asNum row with
      | error e => rfl
      | ok nums =>
        dsimp only [training_transform]
        rw [himp files nums]

/-- Witness for `serving_scales_without_imputation`: a bundle without a
persisted imputer (as written by `verify_and_train.py`). -/
theorem serving_scales_without_imputation_witness :
    get_prediction (fun _ => true) "/app" "/app"
        (fun _ => { counterexample_bundle with imputer_transform := none })
        [("BMI", Value.num 0)]
      = spec_get_prediction (fun _ => true) "/app" "/app"
        (fun _ => { counterexample_bundle with imputer_transform := none })
        [("BMI", Value.num 0)] :=
  serving_scales_without_imputation (fun _ => true) "/app" "/app"
    (fun _ => { counterexample_bundle with imputer_transform := none })
    [("BMI", Value.num 0)] (fun _ _ => rfl)

/-- **C9**: the loader probes the ordered candidate directories and serves
the artifact paths from the first existing one; when no candidate exists it
fails with a `FileNotFoundError` whose detail enumerates every probed
candidate, and that failure propagates unrecovered through
`load_model_components` into `get_prediction`. -/
theorem loader_first_match_or_enumerated_failure (pathExists : String → Bool)
    (project_root cwd : String)
    (readArtifacts : List (String × String) → ArtifactBundle) (d : InputData) :
    ((model_dirs project_root cwd).all (fun dir => !pathExists dir) = true →
      find_model_files pathExists project_root cwd
          = Except.error (PyErr.dirNotFound (model_dirs project_root cwd))
        ∧ get_prediction pathExists project_root cwd readArtifacts d
          = Except.error (PyErr.dirNotFound (model_dirs project_root cwd)))
    ∧ (∀ dir, (model_dirs project_root cwd).find? (fun dir => pathExists dir)
          = some dir →
        filenames.all (fun p => pathExists (joinPath dir p.2)) = true →
        find_model_files pathExists project_root cwd
          = Except.ok (filenames.map (fun p => (p.1, joinPath dir p.2)))) := by
  constructor
  · intro h
    have hnone : (model_dirs project_root cwd).find? (fun dir => pathExists dir)
        = none := by
      rw [List.find?_eq_none]
      intro x hx
      have hx' := List.all_eq_true.mp h x hx
      simp only [Bool.not_eq_true'] at hx'
      simp [hx']
    constructor
    · unfold find_model_files
      rw [hnone]
    · unfold get_prediction load_model_components find_model_files
      rw [hnone]
  · intro dir hfind hfiles
    unfold find_model_files
    rw [hfind]
    dsimp only
    have hnone2 : ((filenames.map (fun p => (p.1, joinPath dir p.2))).find?
        (fun p => !pathExists p.2)) = none := by
      rw [List.find?_eq_none]
      intro p hp
      obtain ⟨q, hq, rfl⟩ := List.mem_map.mp hp
      have hq' := List.all_eq_true.mp hfiles q hq
      simp [hq']
    rw [hnone2]

/-- Witness for `loader_first_match_or_enumerated_failure`: with no existing
path every probed candidate is reported and the error reaches the caller;
with every path existing the first candidate directory is served. -/
theorem loader_first_match_or_enumerated_failure_witness :
    (find_model_files (fun _ => false) "/root/project" "/cwd"
        = Except.error (PyErr.dirNotFound
            ["/root/project/models", "/mount/src/diabetes-analysis/models",
             "/cwd/models"])
      ∧ get_prediction (fun _ => false) "/root/project" "/cwd"
          (fun _ => counterexample_bundle) []
        = Except.error (PyErr.dirNotFound
            ["/root/project/models", "/mount/src/diabetes-analysis/models",
             "/cwd/models"]))
    ∧ find_model_files (fun _ => true) "/root/project" "/cwd"
        = Except.ok [("model", "/root/project/models/diabetes_model.joblib"),
            ("scaler", "/root/project/models/scaler.joblib"),
            ("features", "/root/project/models/feature_columns.txt")] := by
  refine ⟨?_, ?_⟩
  · have h := (loader_first_match_or_enumerated_failure (fun _ => false)
      "/root/project" "/cwd" (fun _ => counterexample_bundle) []).1 rfl
    exact h
  · have h := (loader_first_match_or_enumerated_failure (fun _ => true)
      "/root/project" "/cwd" (fun _ => counterexample_bundle) []).2
      "/root/project/models" rfl rfl
    exact h

end DiabetesGuard
